import Mathlib

/-!
Shallow embedding of the authentication and follow/unfollow subsystem of the
nest-blogpost-api repository: the Prisma data model (prisma/schema.prisma),
UsersService and AuthenticationService, the AuthenticationGuard, the
UsersController ownership checks, and the GoogleStrategy OAuth callback.
Stateful Prisma calls are modelled as explicit state passing over a `Db`
record; thrown JavaScript exceptions are modelled with an explicit result
type.
-/

namespace BlogApi

/-- NestJS HTTP exceptions raised by the services, each carrying its
response message. -/
inductive HttpError where
  | conflict (msg : String)
  | unauthorized (msg : String)
  | notFound (msg : String)
  | internalServerError (msg : String)
  deriving DecidableEq, Repr

/-- HTTP status code of each NestJS exception. -/
def HttpError.status : HttpError → Nat
  | .conflict _ => 409
  | .unauthorized _ => 401
  | .notFound _ => 404
  | .internalServerError _ => 500

/-- Response message of each NestJS exception. -/
def HttpError.text : HttpError → String
  | .conflict m => m
  | .unauthorized m => m
  | .notFound m => m
  | .internalServerError m => m

/-- Every kind of value a JavaScript catch block can receive in the modelled
code paths: a NestJS HttpException, a PrismaClientKnownRequestError with its
error code, or a TypeError. -/
inductive JsError where
  | http (e : HttpError)
  | prismaKnown (code : String) (msg : String)
  | typeError (msg : String)
  deriving DecidableEq, Repr

/-- Outcome of an async service method: a normal return value, a thrown
error, or normal completion without any return statement (the JavaScript
value undefined). -/
inductive SvcResult (α : Type) where
  | ok (a : α)
  | thrown (e : JsError)
  | undefinedReturn
  deriving DecidableEq, Repr

/-- Symbolic model of a bcrypt digest: bcrypt.hash(pw, salt) is recorded as
the salt together with the hashed plaintext. The digest is one-way in the
code; here only the properties the services rely on are kept: compare
succeeds exactly on the original plaintext, and the printed digest differs
from the plaintext. -/
structure BcryptDigest where
  salt : Nat
  source : String
  deriving DecidableEq, Repr

/-- The stored string form of a bcrypt digest, with the bcrypt version and
cost prefix in front. -/
def bcryptString (h : BcryptDigest) : String :=
  "$2b$10$" ++ toString h.salt ++ "$" ++ h.source

/-- bcrypt.compare: recomputes the digest of the candidate under the stored
salt and compares with the stored digest, i.e. succeeds exactly when the
candidate equals the originally hashed plaintext. -/
def bcryptCompare (raw : String) (h : BcryptDigest) : Bool :=
  raw == h.source

/-- JWT payload as signed by AuthenticationService.login: sub is the user id
and email the user email. -/
structure JwtPayload where
  sub : String
  email : String
  deriving DecidableEq, Repr

/-- A signed JWT: payload, issue and expiry times, and the signing secret
standing in for the signature. -/
structure JwtToken where
  payload : JwtPayload
  iat : Nat
  exp : Nat
  secret : String
  deriving DecidableEq, Repr

/-- Token lifetime in seconds: JwtModule is registered with expiresIn 1d
(authentication.module.ts). -/
def jwtLifetime : Nat := 86400

/-- jwtService.signAsync under the configured options: expiry is issue time
plus the 1-day lifetime. -/
def jwtSign (secret : String) (now : Nat) (p : JwtPayload) : JwtToken :=
  ⟨p, now, now + jwtLifetime, secret⟩

/-- A string presented as a token on the wire: either a well-formed signed
token or garbage that no verification accepts. -/
inductive TokenWire where
  | signed (t : JwtToken)
  | malformed (s : String)
  deriving DecidableEq, Repr

/-- jwtService.verifyAsync: fails on malformed input, on a signature made
with a different secret, and on an expired token; otherwise returns the
decoded payload. -/
def jwtVerify (secret : String) (now : Nat) (w : TokenWire) : Option JwtPayload :=
  match w with
  | .malformed _ => none
  | .signed t => if t.secret == secret && now < t.exp then some t.payload else none

/-- Row of the User table (prisma/schema.prisma model User); timestamps and
the role default are omitted as no modelled path reads them. -/
structure UserRow where
  id : String
  email : String
  password : Option BcryptDigest
  avatar : Option String
  deriving DecidableEq, Repr

/-- Row of the Profile table (model Profile); the optional mobile number,
gender and birth date are never written by the modelled paths. -/
structure ProfileRow where
  id : String
  userId : String
  firstName : String
  lastName : Option String
  deriving DecidableEq, Repr

/-- Row of the Account table (model Account). -/
structure AccountRow where
  id : String
  userId : String
  providerType : String
  providerId : String
  deriving DecidableEq, Repr

/-- Row of the Follows table (model Follows), identified by the composite
key of follower and followee. -/
structure FollowsRow where
  followerId : String
  followingId : String
  deriving DecidableEq, Repr

/-- Database state: the four tables the modelled operations touch, plus the
deterministic supplies standing in for cuid generation and bcrypt.genSalt. -/
structure Db where
  users : List UserRow
  profiles : List ProfileRow
  accounts : List AccountRow
  follows : List FollowsRow
  nextId : Nat
  nextSalt : Nat
  deriving DecidableEq, Repr

/-- Fresh cuid from the id supply. -/
def freshId (n : Nat) : String := "c" ++ toString n

/-- Message attached to the Prisma P2025 known request error. -/
def p2025Message : String :=
  "An operation failed because it depends on one or more records that were required but not found."

/-- prisma.user.findFirst with an email filter. -/
def userFindByEmail (db : Db) (email : String) : Option UserRow :=
  db.users.find? (fun u => u.email == email)

/-- prisma.user.findFirst with an id filter. -/
def userFindById (db : Db) (id : String) : Option UserRow :=
  db.users.find? (fun u => u.id == id)

/-- Whether a Follows row with the given composite key exists. -/
def hasFollowEdge (db : Db) (followerId followingId : String) : Bool :=
  db.follows.any (fun f => f.followerId == followerId && f.followingId == followingId)

/-- prisma.user.create with a nested profile create and an optional nested
account create, as issued by UsersService.createUser. A violation of the
unique email constraint raises the Prisma P2002 known request error;
otherwise the user, profile and optional account rows are inserted together.
The account argument carries provider type and provider id. -/
def prismaUserCreate (db : Db) (email : String) (password : Option BcryptDigest)
    (avatar : Option String) (firstName : String) (lastName : Option String)
    (account : Option (String × String)) : Except JsError (UserRow × Db) :=
  if db.users.any (fun u => u.email == email) then
    .error (.prismaKnown "P2002" "Unique constraint failed on the fields: (email)")
  else
    let u : UserRow := ⟨freshId db.nextId, email, password, avatar⟩
    let p : ProfileRow := ⟨freshId (db.nextId + 1), u.id, firstName, lastName⟩
    let acc : List AccountRow :=
      match account with
      | some pa => [⟨freshId (db.nextId + 2), u.id, pa.1, pa.2⟩]
      | none => []
    .ok (u, ⟨u :: db.users, p :: db.profiles, acc ++ db.accounts, db.follows,
             db.nextId + 3, db.nextSalt⟩)

/-- prisma.follows.create as issued by UsersService.followUser: connecting a
missing user raises P2025, a duplicate composite key raises P2002, otherwise
the edge row is inserted. -/
def prismaFollowsCreate (db : Db) (followerId followingId : String) : Except JsError Db :=
  if (userFindById db followingId).isNone || (userFindById db followerId).isNone then
    .error (.prismaKnown "P2025" p2025Message)
  else if hasFollowEdge db followerId followingId then
    .error (.prismaKnown "P2002"
      "Unique constraint failed on the fields: (followerId,followingId)")
  else
    .ok ⟨db.users, db.profiles, db.accounts, ⟨followerId, followingId⟩ :: db.follows,
         db.nextId, db.nextSalt⟩

/-- prisma.follows.delete by composite key as issued by
UsersService.unfollowUser: deleting a missing row raises P2025. -/
def prismaFollowsDelete (db : Db) (followerId followingId : String) : Except JsError Db :=
  if hasFollowEdge db followerId followingId then
    let remaining := db.follows.filter
      (fun f => !(f.followerId == followerId && f.followingId == followingId))
    .ok ⟨db.users, db.profiles, db.accounts, remaining, db.nextId, db.nextSalt⟩
  else
    .error (.prismaKnown "P2025" p2025Message)

/-- UsersService.validateUser: findFirst by email, null when absent. -/
def validateUser (db : Db) (email : String) : Option UserRow :=
  userFindByEmail db email

/-- JavaScript truthiness of an optional string: undefined and the empty
string are falsy, every other string is truthy. -/
def truthyString : Option String → Bool
  | none => false
  | some s => !(s == "")

/-- The userInputs parameter of UsersService.createUser. -/
structure UserInputs where
  email : String
  password : Option String
  avatar : Option String
  deriving DecidableEq, Repr

/-- The profileInputs parameter of UsersService.createUser. -/
structure ProfileInputs where
  firstName : String
  lastName : Option String
  deriving DecidableEq, Repr

/-- The optional accountInputs parameter of UsersService.createUser. -/
structure AccountInputs where
  providerType : String
  providerId : String
  deriving DecidableEq, Repr

/-- UsersService.createUser. When the password is truthy it is hashed with a
fresh salt and the user is created with a nested profile and no account.
When the password is falsy the code reads providerId and providerType off
accountInputs: if accountInputs is undefined this dereference throws a
TypeError; otherwise the user is created with a nested profile and account
and a null password. The salt supply advances before the create call, and a
failed create leaves the tables untouched. -/
def createUser (db : Db) (userInputs : UserInputs) (profileInputs : ProfileInputs)
    (accountInputs : Option AccountInputs) : Except JsError UserRow × Db :=
  if truthyString userInputs.password then
    let digest : BcryptDigest := ⟨db.nextSalt, userInputs.password.getD ""⟩
    let db1 : Db := ⟨db.users, db.profiles, db.accounts, db.follows, db.nextId,
                     db.nextSalt + 1⟩
    match prismaUserCreate db1 userInputs.email (some digest) userInputs.avatar
        profileInputs.firstName profileInputs.lastName none with
    | .ok (u, db2) => (.ok u, db2)
    | .error e => (.error e, db1)
  else
    match accountInputs with
    | none =>
      (.error (.typeError "Cannot read properties of undefined (reading providerId)"), db)
    | some acc =>
      match prismaUserCreate db userInputs.email none userInputs.avatar
          profileInputs.firstName profileInputs.lastName
          (some (acc.providerType, acc.providerId)) with
      | .ok (u, db2) => (.ok u, db2)
      | .error e => (.error e, db)

/-- The response envelope built by the follow and unfollow service methods. -/
structure Envelope where
  message : String
  statusCode : Nat
  deriving DecidableEq, Repr

/-- The catch block shared verbatim by UsersService.followUser and
UsersService.unfollowUser: a known Prisma error with code P2025 is rethrown
as InternalServerError carrying the Prisma message; a known Prisma error
with any other code (in particular the P2002 duplicate-key violation) falls
through the branch without a throw, so the method completes and returns
undefined; a NotFoundException is rethrown; anything else becomes a generic
InternalServerError. -/
def followCatch (e : JsError) : SvcResult Envelope :=
  match e with
  | .prismaKnown code msg =>
    if code == "P2025" then .thrown (.http (.internalServerError msg))
    else .undefinedReturn
  | .http (.notFound m) => .thrown (.http (.notFound m))
  | _ => .thrown (.http (.internalServerError
      "Something went wrong. Failed to following user."))

/-- UsersService.followUser: look up the follower by id (NotFound when
absent), then insert the Follows edge; errors of the insert go through the
shared catch block. -/
def followUser (db : Db) (userId followedId : String) : SvcResult Envelope × Db :=
  match userFindById db userId with
  | none => (followCatch (.http (.notFound "User not found")), db)
  | some user =>
    match prismaFollowsCreate db user.id followedId with
    | .ok db1 => (.ok ⟨"following user successfully", 200⟩, db1)
    | .error e => (followCatch e, db)

/-- UsersService.unfollowUser: look up the follower by id (NotFound when
absent), then delete the Follows edge by composite key; errors of the delete
go through the shared catch block. -/
def unfollowUser (db : Db) (userId followedId : String) : SvcResult Envelope × Db :=
  match userFindById db userId with
  | none => (followCatch (.http (.notFound "User not found")), db)
  | some user =>
    match prismaFollowsDelete db user.id followedId with
    | .ok db1 => (.ok ⟨"unfollow user successfully", 200⟩, db1)
    | .error e => (followCatch e, db)

/-- The sign-up request body after validation (SignUpDto); confirmPassword
is only checked for equality by the Match decorator and is dropped here. -/
structure SignUpDto where
  firstName : String
  lastName : Option String
  email : String
  password : String
  deriving DecidableEq, Repr

/-- Lower-casing of a string, character by character. -/
def toLowerString (s : String) : String :=
  String.mk (s.data.map Char.toLower)

/-- The Transform decorators of SignUpDto, applied by the ValidationPipe
through class-transformer: firstName, lastName and email are lower-cased
before the handler sees them. -/
def SignUpDto.transform (d : SignUpDto) : SignUpDto :=
  ⟨toLowerString d.firstName, d.lastName.map toLowerString, toLowerString d.email, d.password⟩

/-- The sign-in request body (SignInDto): email and password, untransformed. -/
structure SignInDto where
  email : String
  password : String
  deriving DecidableEq, Repr

/-- Successful response of AuthenticationService.register. -/
structure RegisterOk where
  message : String
  statusCode : Nat
  data : UserRow
  deriving DecidableEq, Repr

/-- The catch block of AuthenticationService.register: a ConflictException
is rethrown unchanged, every other error becomes InternalServerError. -/
def registerCatch (e : JsError) : JsError :=
  match e with
  | .http (.conflict m) => .http (.conflict m)
  | _ => .http (.internalServerError "failed to create user")

/-- AuthenticationService.register: reject with Conflict when a user with
the email already exists, otherwise create the user and profile through
UsersService.createUser and wrap the new user in a 201 envelope. -/
def register (db : Db) (dto : SignUpDto) : SvcResult RegisterOk × Db :=
  match validateUser db dto.email with
  | some _ => (.thrown (.http (.conflict "user already exist")), db)
  | none =>
    match createUser db ⟨dto.email, some dto.password, none⟩
        ⟨dto.firstName, dto.lastName⟩ none with
    | (.ok u, db1) => (.ok ⟨"Create user successfully", 201, u⟩, db1)
    | (.error e, db1) => (.thrown (registerCatch e), db1)

/-- The sign-up pipeline of POST /auth/sign-up: the ValidationPipe runs the
SignUpDto transforms, then AuthenticationController.signUp delegates to
AuthenticationService.register. -/
def signUp (db : Db) (dto : SignUpDto) : SvcResult RegisterOk × Db :=
  register db dto.transform

/-- Successful response of AuthenticationService.login. -/
structure LoginOk where
  accessToken : JwtToken
  message : String
  statusCode : Nat
  deriving DecidableEq, Repr

/-- AuthenticationService.login: Unauthorized when no user exists for the
email, when the stored password hash is null, or when bcrypt.compare fails;
otherwise sign a token over sub and email and return it in a 201 envelope.
The catch block rethrows the UnauthorizedException unchanged; no other
throw site exists on these paths. -/
def login (secret : String) (now : Nat) (db : Db) (dto : SignInDto) : SvcResult LoginOk :=
  match validateUser db dto.email with
  | none => .thrown (.http (.unauthorized "Invalid credentials"))
  | some user =>
    match user.password with
    | none => .thrown (.http (.unauthorized "Invalid credentials"))
    | some digest =>
      if bcryptCompare dto.password digest then
        .ok ⟨jwtSign secret now ⟨user.id, user.email⟩, "Login successfully", 201⟩
      else
        .thrown (.http (.unauthorized "Invalid credentials"))

/-- Route metadata read by the guard: the IS_PUBLIC_KEY value attached to
the handler and to the controller class, each possibly absent. -/
structure RouteMeta where
  handlerPublic : Option Bool
  classPublic : Option Bool
  deriving DecidableEq, Repr

/-- Reflector.getAllAndOverride over handler then class: the first defined
metadata value wins. -/
def getAllAndOverride (m : RouteMeta) : Option Bool :=
  m.handlerPublic <|> m.classPublic

/-- Truthiness of the metadata lookup, as tested by the guard. -/
def isPublicRoute (m : RouteMeta) : Bool :=
  (getAllAndOverride m).getD false

/-- The Authorization header split at the first space: a scheme followed by
credentials, or a scheme alone. -/
inductive AuthHeader where
  | withCredentials (scheme : String) (credentials : TokenWire)
  | schemeOnly (scheme : String)
  deriving DecidableEq, Repr

/-- An inbound request as the guard sees it: the optional Authorization
header and the user field it may attach. -/
structure GuardRequest where
  authorization : Option AuthHeader
  user : Option JwtPayload
  deriving DecidableEq, Repr

/-- AuthenticationGuard.extractTokenFromHeader: the credentials part of the
Authorization header when its scheme is exactly Bearer, undefined otherwise
(missing header, different scheme, or scheme without credentials). -/
def extractTokenFromHeader (req : GuardRequest) : Option TokenWire :=
  match req.authorization with
  | none => none
  | some (.schemeOnly _) => none
  | some (.withCredentials scheme cred) =>
    if scheme == "Bearer" then some cred else none

/-- AuthenticationGuard.canActivate: a route whose metadata marks it public
is allowed at once, before any token handling; otherwise a missing token or
a failed verification is rejected with Unauthorized, and a verified payload
is attached to the request before allowing it. -/
def canActivate (secret : String) (now : Nat) (m : RouteMeta) (req : GuardRequest) :
    SvcResult GuardRequest :=
  if isPublicRoute m then .ok req
  else
    match extractTokenFromHeader req with
    | none => .thrown (.http (.unauthorized "Invalid credentials"))
    | some w =>
      match jwtVerify secret now w with
      | none => .thrown (.http (.unauthorized "Invalid credentials"))
      | some payload => .ok ⟨req.authorization, some payload⟩

/-- UsersController.follow: the sub of the verified token must equal the id
path parameter, else UnauthorizedException (whose default message is
Unauthorized) is thrown before the service is called. -/
def controllerFollow (db : Db) (tokenSub : String) (id followedId : String) :
    SvcResult Envelope × Db :=
  if tokenSub == id then followUser db id followedId
  else (.thrown (.http (.unauthorized "Unauthorized")), db)

/-- UsersController.unfollow: same ownership check as follow, then the
unfollow service method. -/
def controllerUnfollow (db : Db) (tokenSub : String) (id followedId : String) :
    SvcResult Envelope × Db :=
  if tokenSub == id then unfollowUser db id followedId
  else (.thrown (.http (.unauthorized "Unauthorized")), db)

/-- Split a character list at every occurrence of the separator, keeping
empty chunks, as the JavaScript string split does. -/
def splitChars (sep : Char) : List Char → List (List Char)
  | [] => [[]]
  | c :: cs =>
    match splitChars sep cs with
    | [] => if c == sep then [[], [c]] else [[c]]
    | w :: ws => if c == sep then [] :: w :: ws else (c :: w) :: ws

/-- The JavaScript split of a string at a separator character. -/
def splitString (s : String) (sep : Char) : List String :=
  (splitChars sep s.data).map (fun cs => String.mk cs)

/-- The fields GoogleStrategy.validate reads off the Google profile: the
provider-assigned id, the display name, and the first email and photo. -/
structure GoogleProfile where
  id : String
  displayName : String
  email : String
  avatar : String
  deriving DecidableEq, Repr

/-- GoogleStrategy.validate. The display name is split on spaces into first
and last name. When no user exists for the email, createUser inserts the
user, profile and google account with a null password. In both branches the
code then assigns to a property of payloadData, a variable that is declared
but never initialised, so a TypeError is thrown; the rows written by the
new-user branch are already committed when that happens, and the token
signing and done callback below the assignment are never reached. -/
def googleValidate (db : Db) (profile : GoogleProfile) : SvcResult JwtPayload × Db :=
  let splitted := splitString profile.displayName ' '
  let firstName := splitted.headD ""
  let lastName := splitted.get? 1
  match validateUser db profile.email with
  | none =>
    match createUser db ⟨profile.email, none, some profile.avatar⟩
        ⟨firstName, lastName⟩ (some ⟨"google", profile.id⟩) with
    | (.ok _, db1) =>
      (.thrown (.typeError "Cannot set properties of undefined (setting id)"), db1)
    | (.error e, db1) => (.thrown e, db1)
  | some _ =>
    (.thrown (.typeError "Cannot set properties of undefined (setting id)"), db)

/-- Shape of a value serialised to the client: a JSON object whose message
and statusCode fields may each be present or absent, a bare string, or an
undefined body. -/
inductive ClientValue where
  | json (message : Option String) (statusCode : Option Nat)
  | bareString (s : String)
  | undefinedBody
  deriving DecidableEq, Repr

/-- Whether a client value is a response envelope: a JSON object carrying
both a message and a numeric status code. -/
def isEnvelope : ClientValue → Bool
  | .json (some _) (some _) => true
  | _ => false

/-- AuthenticationService.googleLogin: the bare string when req.user is
missing, otherwise an object with a message and the user but no statusCode
field. -/
def googleLogin (reqUser : Option JwtPayload) : ClientValue :=
  match reqUser with
  | none => .bareString "No user from google"
  | some _ => .json (some "User information from google") none

/-- How a thrown error reaches the client: an HttpException is serialised by
the framework as a JSON body with its message and status code, and any
non-HTTP error is replaced by the default 500 Internal server error body. -/
def jsErrorToClient (e : JsError) : ClientValue :=
  match e with
  | .http he => .json (some he.text) (some he.status)
  | _ => .json (some "Internal server error") (some 500)

/-- Serialisation of a service outcome given the serialisation of its
normal return value. -/
def svcToClient {α : Type} (okBody : α → ClientValue) : SvcResult α → ClientValue
  | .ok a => okBody a
  | .thrown e => jsErrorToClient e
  | .undefinedReturn => .undefinedBody

/-- Client-visible body of POST /auth/sign-up. -/
def registerClient (db : Db) (dto : SignUpDto) : ClientValue :=
  svcToClient (fun r => .json (some r.message) (some r.statusCode)) (signUp db dto).1

/-- Client-visible body of POST /auth/sign-in. -/
def loginClient (secret : String) (now : Nat) (db : Db) (dto : SignInDto) : ClientValue :=
  svcToClient (fun r => .json (some r.message) (some r.statusCode))
    (login secret now db dto)

/-- Client-visible body of the follow service call. -/
def followClient (db : Db) (userId followedId : String) : ClientValue :=
  svcToClient (fun env => .json (some env.message) (some env.statusCode))
    (followUser db userId followedId).1

/-- Client-visible body of the unfollow service call. -/
def unfollowClient (db : Db) (userId followedId : String) : ClientValue :=
  svcToClient (fun env => .json (some env.message) (some env.statusCode))
    (unfollowUser db userId followedId).1

/-! Concrete fixtures used by witnesses and counterexamples. -/

/-- Empty database. -/
def dbEmpty : Db := ⟨[], [], [], [], 0, 0⟩

/-- A user row with id a and no password. -/
def userA : UserRow := ⟨"a", "a@x.com", none, none⟩

/-- A user row with id b and no password. -/
def userB : UserRow := ⟨"b", "b@x.com", none, none⟩

/-- Database with users a and b and the follow edge from a to b already
present. -/
def dbWithEdge : Db := ⟨[userA, userB], [], [], [⟨"a", "b"⟩], 10, 0⟩

/-- Database with users a and b and no follow edges. -/
def dbNoEdges : Db := ⟨[userA, userB], [], [], [], 10, 0⟩

/-- A Google profile whose email may or may not match a stored user. -/
def googleProfile1 : GoogleProfile := ⟨"gid1", "John Smith", "john@x.com", "pic"⟩

/-- Database with an existing local user owning the email of
googleProfile1. -/
def dbLocalJohn : Db := ⟨[⟨"u1", "john@x.com", some ⟨0, "pw"⟩, none⟩], [], [], [], 5, 3⟩

/-- C6: following an already-followed user does not raise a Conflict; the
P2002 duplicate-key error from prisma.follows.create is caught and silently
swallowed by the catch block of UsersService.followUser, so the method
completes normally with the value undefined and the edge set is unchanged. -/
theorem followUser_duplicate_swallowed :
    followUser dbWithEdge "a" "b" = (SvcResult.undefinedReturn, dbWithEdge) := by
  rfl

/-- C7 counterexample: unfollowing a non-existent edge for an existing
follower throws InternalServerError carrying the Prisma P2025 message, not
NotFound as the claim states; the state is unchanged. -/
theorem unfollowUser_missing_edge_counterexample :
    unfollowUser dbNoEdges "a" "b"
      = (SvcResult.thrown (JsError.http (HttpError.internalServerError p2025Message)),
         dbNoEdges) := by
  rfl

/-- C8: GoogleStrategy.validate never returns the resolved user: in both
branches the assignment to a property of the uninitialised payloadData
variable throws a TypeError. For an email owned by an existing user the
state is unchanged and no Account row is created; for a fresh email the
User, Profile and Account rows are created together with a null password
hash, and the method then crashes all the same. -/
theorem googleValidate_crashes :
    googleValidate dbLocalJohn googleProfile1
      = (SvcResult.thrown
           (JsError.typeError "Cannot set properties of undefined (setting id)"),
         dbLocalJohn)
    ∧ googleValidate dbEmpty googleProfile1
      = (SvcResult.thrown
           (JsError.typeError "Cannot set properties of undefined (setting id)"),
         ⟨[⟨"c0", "john@x.com", none, some "pic"⟩],
          [⟨"c1", "c0", "John", some "Smith"⟩],
          [⟨"c2", "c0", "google", "gid1"⟩], [], 3, 0⟩) := by
  exact ⟨rfl, rfl⟩

/-- C9 counterexample: the Google OAuth callback response is not an
envelope: with no user on the request it is the bare string, and with a
user it is an object carrying a message but no statusCode field. -/
theorem googleLogin_not_envelope :
    googleLogin none = ClientValue.bareString "No user from google"
    ∧ isEnvelope (googleLogin none) = false
    ∧ isEnvelope (googleLogin (some ⟨"u1", "john@x.com"⟩)) = false := by
  exact ⟨rfl, rfl, rfl⟩

/-- The three rejection conditions of AuthenticationService.login: unknown
email, stored user with a null password hash, or a failed bcrypt compare. -/
def loginRejected (db : Db) (dto : SignInDto) : Prop :=
  validateUser db dto.email = none
  ∨ (∃ u, validateUser db dto.email = some u ∧ u.password = none)
  ∨ (∃ u d, validateUser db dto.email = some u ∧ u.password = some d
      ∧ bcryptCompare dto.password d = false)

/-- C1: login throws exactly in the three rejection cases, the thrown error
is always the Unauthorized invalid-credentials exception, and hence no
access token is issued in any of them. -/
theorem login_unauthorized_iff (secret : String) (now : Nat) (db : Db) (dto : SignInDto) :
    (login secret now db dto
        = SvcResult.thrown (JsError.http (HttpError.unauthorized "Invalid credentials"))
      ↔ loginRejected db dto)
    ∧ (∀ e, login secret now db dto = SvcResult.thrown e
        → e = JsError.http (HttpError.unauthorized "Invalid credentials")) := by
  unfold login loginRejected
  cases h : validateUser db dto.email with
  | none => simp
  | some u =>
    cases hp : u.password with
    | none => simp [hp]
    | some d =>
      by_cases hc : bcryptCompare dto.password d = true
      · simp [hp, hc]
      · simp [Bool.not_eq_true] at hc
        simp [hp, hc]

/-- C1 witness: with an empty store, login is rejected with Unauthorized. -/
theorem login_unauthorized_iff_witness :
    login "s" 0 dbEmpty ⟨"a@x.com", "pw"⟩
      = SvcResult.thrown (JsError.http (HttpError.unauthorized "Invalid credentials")) :=
  (login_unauthorized_iff "s" 0 dbEmpty ⟨"a@x.com", "pw"⟩).1.mpr (Or.inl rfl)

/-- C2: the guard admits public routes at once, with the request untouched
and never inspecting a token; on non-public routes a missing bearer token or
a failed verification is rejected with Unauthorized, and a verified payload
is attached to the request before the call is allowed. -/
theorem canActivate_cases (secret : String) (now : Nat) (m : RouteMeta) (req : GuardRequest) :
    (isPublicRoute m = true → canActivate secret now m req = SvcResult.ok req)
    ∧ (isPublicRoute m = false → extractTokenFromHeader req = none →
        canActivate secret now m req
          = SvcResult.thrown (JsError.http (HttpError.unauthorized "Invalid credentials")))
    ∧ (∀ w, isPublicRoute m = false → extractTokenFromHeader req = some w →
        jwtVerify secret now w = none →
        canActivate secret now m req
          = SvcResult.thrown (JsError.http (HttpError.unauthorized "Invalid credentials")))
    ∧ (∀ w p, isPublicRoute m = false → extractTokenFromHeader req = some w →
        jwtVerify secret now w = some p →
        canActivate secret now m req = SvcResult.ok ⟨req.authorization, some p⟩) := by
  refine ⟨fun hp => ?_, fun hp he => ?_, fun w hp he hv => ?_, fun w p hp he hv => ?_⟩
  · simp [canActivate, hp]
  · simp [canActivate, hp, he]
  · simp [canActivate, hp, he, hv]
  · simp [canActivate, hp, he, hv]

/-- C2 witness: a public route admits a request with no header at all. -/
theorem canActivate_cases_witness :
    canActivate "secret" 0 ⟨some true, none⟩ ⟨none, none⟩ = SvcResult.ok ⟨none, none⟩ :=
  (canActivate_cases "secret" 0 ⟨some true, none⟩ ⟨none, none⟩).1 rfl

/-- C10: when the token subject differs from the id path parameter, both the
follow and the unfollow controller endpoints throw Unauthorized before the
service runs, leaving the state unchanged. -/
theorem controller_follow_ownership (db : Db) (sub id followedId : String)
    (h : sub ≠ id) :
    controllerFollow db sub id followedId
      = (SvcResult.thrown (JsError.http (HttpError.unauthorized "Unauthorized")), db)
    ∧ controllerUnfollow db sub id followedId
      = (SvcResult.thrown (JsError.http (HttpError.unauthorized "Unauthorized")), db) := by
  have hb : (sub == id) = false := by simpa using h
  constructor <;> simp [controllerFollow, controllerUnfollow, hb]

/-- C10 witness: a token for user x cannot follow or unfollow on behalf of
user a. -/
theorem controller_follow_ownership_witness :
    controllerFollow dbNoEdges "x" "a" "b"
      = (SvcResult.thrown (JsError.http (HttpError.unauthorized "Unauthorized")), dbNoEdges)
    ∧ controllerUnfollow dbNoEdges "x" "a" "b"
      = (SvcResult.thrown (JsError.http (HttpError.unauthorized "Unauthorized")), dbNoEdges) :=
  controller_follow_ownership dbNoEdges "x" "a" "b" (by decide)

/-- C4: with a matching password, login returns exactly the token signed
over the user id and email, and within the 1-day lifetime verification under
the same secret decodes it back to that subject and email. -/
theorem login_token_roundtrip (secret : String) (now now2 : Nat) (db : Db)
    (dto : SignInDto) (u : UserRow) (d : BcryptDigest)
    (hu : validateUser db dto.email = some u)
    (hp : u.password = some d)
    (hc : bcryptCompare dto.password d = true)
    (hexp : now2 < now + jwtLifetime) :
    login secret now db dto
      = SvcResult.ok ⟨jwtSign secret now ⟨u.id, u.email⟩, "Login successfully", 201⟩
    ∧ jwtVerify secret now2 (TokenWire.signed (jwtSign secret now ⟨u.id, u.email⟩))
      = some ⟨u.id, u.email⟩ := by
  constructor
  · simp [login, hu, hp, hc]
  · simp [jwtVerify, jwtSign, hexp]

/-- C4 witness: a concrete user logs in and the token verifies back to its
id and email one second later. -/
theorem login_token_roundtrip_witness :
    login "topsecret" 100 ⟨[⟨"u1", "a@x.com", some ⟨7, "hunter2"⟩, none⟩], [], [], [], 4, 9⟩
        ⟨"a@x.com", "hunter2"⟩
      = SvcResult.ok ⟨jwtSign "topsecret" 100 ⟨"u1", "a@x.com"⟩, "Login successfully", 201⟩
    ∧ jwtVerify "topsecret" 101 (TokenWire.signed (jwtSign "topsecret" 100 ⟨"u1", "a@x.com"⟩))
      = some ⟨"u1", "a@x.com"⟩ :=
  login_token_roundtrip "topsecret" 100 101
    ⟨[⟨"u1", "a@x.com", some ⟨7, "hunter2"⟩, none⟩], [], [], [], 4, 9⟩
    ⟨"a@x.com", "hunter2"⟩ ⟨"u1", "a@x.com", some ⟨7, "hunter2"⟩, none⟩ ⟨7, "hunter2"⟩
    rfl rfl rfl (by decide)

/-- If findFirst by email returns null then no stored row carries the
email. -/
lemma any_email_false_of_validateUser_none {db : Db} {e : String}
    (h : validateUser db e = none) :
    (db.users.any fun u => u.email == e) = false := by
  unfold validateUser userFindByEmail at h
  cases hb : db.users.any fun u => u.email == e
  · rfl
  · exfalso
    rw [List.any_eq_true] at hb
    obtain ⟨x, hx, hpx⟩ := hb
    rw [List.find?_eq_none] at h
    exact absurd hpx (by simpa using h x hx)

/-- C5: for a fresh email and a non-empty password, register prepends
exactly one User row and one Profile row, leaves the account and follow
tables unchanged, and the stored password is the salted bcrypt digest of the
submitted password, whose stored string differs from the plaintext. -/
theorem register_creates_user_and_profile (db : Db) (dto : SignUpDto)
    (hfresh : validateUser db dto.email = none)
    (hpw : dto.password ≠ "") :
    register db dto
      = (SvcResult.ok ⟨"Create user successfully", 201,
           ⟨freshId db.nextId, dto.email, some ⟨db.nextSalt, dto.password⟩, none⟩⟩,
         ⟨⟨freshId db.nextId, dto.email, some ⟨db.nextSalt, dto.password⟩, none⟩ :: db.users,
          ⟨freshId (db.nextId + 1), freshId db.nextId, dto.firstName, dto.lastName⟩
            :: db.profiles,
          db.accounts, db.follows, db.nextId + 3, db.nextSalt + 1⟩)
    ∧ bcryptString ⟨db.nextSalt, dto.password⟩ ≠ dto.password := by
  have hany := any_email_false_of_validateUser_none hfresh
  constructor
  · simp [register, hfresh, createUser, truthyString, hpw, prismaUserCreate, hany]
  · intro hEq
    have hlen := congrArg String.length hEq
    rw [bcryptString] at hlen
    have h7 : ("$2b$10$" : String).length = 7 := rfl
    have hd : ("$" : String).length = 1 := rfl
    simp only [String.length_append, h7, hd] at hlen
    omega

/-- C5 witness: a concrete registration on the empty store. -/
theorem register_creates_user_and_profile_witness :
    register dbEmpty ⟨"wina", none, "wina@email.com", "secret1"⟩
      = (SvcResult.ok ⟨"Create user successfully", 201,
           ⟨freshId 0, "wina@email.com", some ⟨0, "secret1"⟩, none⟩⟩,
         ⟨[⟨freshId 0, "wina@email.com", some ⟨0, "secret1"⟩, none⟩],
          [⟨freshId 1, freshId 0, "wina", none⟩], [], [], 3, 1⟩)
    ∧ bcryptString ⟨0, "secret1"⟩ ≠ "secret1" :=
  register_creates_user_and_profile dbEmpty ⟨"wina", none, "wina@email.com", "secret1"⟩
    rfl (by decide)

/-- C7 amended: with an existing follower and no stored edge, unfollow
throws InternalServerError carrying the Prisma P2025 message and leaves the
state unchanged. -/
theorem unfollowUser_missing_edge_internal (db : Db) (a b : String) (u : UserRow)
    (hu : userFindById db a = some u)
    (he : hasFollowEdge db u.id b = false) :
    unfollowUser db a b
      = (SvcResult.thrown (JsError.http (HttpError.internalServerError p2025Message)), db) := by
  simp [unfollowUser, hu, prismaFollowsDelete, he, followCatch]

/-- C7 amended witness: after follow then unfollow, a further unfollow again
throws InternalServerError. -/
theorem unfollowUser_missing_edge_internal_witness :
    unfollowUser ((unfollowUser ((followUser dbNoEdges "a" "b").2) "a" "b").2) "a" "b"
      = (SvcResult.thrown (JsError.http (HttpError.internalServerError p2025Message)),
         (unfollowUser ((followUser dbNoEdges "a" "b").2) "a" "b").2) :=
  unfollowUser_missing_edge_internal
    ((unfollowUser ((followUser dbNoEdges "a" "b").2) "a" "b").2) "a" "b" userA rfl rfl

/-- Every thrown error is serialised to the client as a JSON body carrying a
message and a numeric status code. -/
lemma isEnvelope_jsErrorToClient (e : JsError) : isEnvelope (jsErrorToClient e) = true := by
  cases e with
  | http he => cases he <;> rfl
  | prismaKnown c m => rfl
  | typeError m => rfl

/-- register never completes without a return value. -/
lemma register_ne_undefined (db : Db) (dto : SignUpDto) :
    (register db dto).1 ≠ SvcResult.undefinedReturn := by
  unfold register
  cases hv : validateUser db dto.email with
  | some u => simp
  | none =>
    rcases hc : createUser db ⟨dto.email, some dto.password, none⟩
        ⟨dto.firstName, dto.lastName⟩ none with ⟨fst, snd⟩
    cases fst <;> simp

/-- login never completes without a return value. -/
lemma login_ne_undefined (secret : String) (now : Nat) (db : Db) (dto : SignInDto) :
    login secret now db dto ≠ SvcResult.undefinedReturn := by
  unfold login
  cases hv : validateUser db dto.email with
  | none => simp
  | some u =>
    cases hp : u.password with
    | none => simp [hp]
    | some d => by_cases hc : bcryptCompare dto.password d = true <;> simp [hp, hc]

/-- C9 amended: the sign-up, sign-in and unfollow responses, successful or
thrown, always reach the client as an envelope carrying a message and a
numeric status code, and the follow response does too except on the
swallowed duplicate-edge path, where the method returns undefined. -/
theorem service_responses_are_envelopes (secret : String) (now : Nat) (db : Db)
    (su : SignUpDto) (si : SignInDto) (a b : String) :
    isEnvelope (registerClient db su) = true
    ∧ isEnvelope (loginClient secret now db si) = true
    ∧ isEnvelope (unfollowClient db a b) = true
    ∧ (isEnvelope (followClient db a b) = true
       ∨ (followUser db a b).1 = SvcResult.undefinedReturn) := by
  refine ⟨?_, ?_, ?_, ?_⟩
  · unfold registerClient signUp
    cases hr : (register db su.transform).1 with
    | ok r => simp [svcToClient, hr, isEnvelope]
    | thrown e => simp [svcToClient, hr, isEnvelope_jsErrorToClient]
    | undefinedReturn => exact absurd hr (register_ne_undefined db su.transform)
  · unfold loginClient
    cases hr : login secret now db si with
    | ok r => simp [svcToClient, hr, isEnvelope]
    | thrown e => simp [svcToClient, hr, isEnvelope_jsErrorToClient]
    | undefinedReturn => exact absurd hr (login_ne_undefined secret now db si)
  · unfold unfollowClient svcToClient unfollowUser
    cases hu : userFindById db a with
    | none => simp [followCatch, jsErrorToClient, isEnvelope]
    | some u =>
      unfold prismaFollowsDelete
      by_cases he : hasFollowEdge db u.id b = true
      · simp [he, isEnvelope]
      · simp [Bool.not_eq_true] at he
        simp [he, followCatch, jsErrorToClient, isEnvelope]
  · unfold followClient svcToClient followUser
    cases hu : userFindById db a with
    | none => left; simp [followCatch, jsErrorToClient, isEnvelope]
    | some u =>
      unfold prismaFollowsCreate
      by_cases hm : ((userFindById db b).isNone || (userFindById db u.id).isNone) = true
      · left; simp [hm, followCatch, jsErrorToClient, isEnvelope]
      · simp [Bool.not_eq_true] at hm
        by_cases he : hasFollowEdge db u.id b = true
        · right; simp [hm, he, followCatch]
        · simp [Bool.not_eq_true] at he
          left; simp [hm, he, isEnvelope]

/-- C9 amended witness: on a concrete store the four response shapes are as
stated. -/
theorem service_responses_are_envelopes_witness :
    isEnvelope (registerClient dbEmpty ⟨"Wina", none, "Wina@Email.com", "secret1"⟩) = true
    ∧ isEnvelope (loginClient "s" 0 dbEmpty ⟨"a@x.com", "pw"⟩) = true
    ∧ isEnvelope (unfollowClient dbEmpty "a" "b") = true
    ∧ (isEnvelope (followClient dbEmpty "a" "b") = true
       ∨ (followUser dbEmpty "a" "b").1 = SvcResult.undefinedReturn) :=
  service_responses_are_envelopes "s" 0 dbEmpty ⟨"Wina", none, "Wina@Email.com", "secret1"⟩
    ⟨"a@x.com", "pw"⟩ "a" "b"

/-- Inversion of a successful register call: the email was fresh and the
state gained exactly the new user row (carrying the lower-cased email the
dto arrived with) and its profile row. -/
lemma register_ok_inv {db db1 : Db} {dto : SignUpDto} {env : RegisterOk}
    (h : register db dto = (SvcResult.ok env, db1)) :
    validateUser db dto.email = none
    ∧ db1 = ⟨⟨freshId db.nextId, dto.email, some ⟨db.nextSalt, dto.password⟩, none⟩
               :: db.users,
             ⟨freshId (db.nextId + 1), freshId db.nextId, dto.firstName, dto.lastName⟩
               :: db.profiles,
             db.accounts, db.follows, db.nextId + 3, db.nextSalt + 1⟩ := by
  unfold register at h
  cases hv : validateUser db dto.email with
  | some u => rw [hv] at h; simp at h
  | none =>
    rw [hv] at h
    refine ⟨rfl, ?_⟩
    by_cases hpw : (dto.password == "") = true
    · simp [createUser, truthyString, hpw] at h
    · have hany := any_email_false_of_validateUser_none hv
      simp [createUser, truthyString, hpw, prismaUserCreate, hany] at h
      exact h.2.symm

/-- When a user with the email already exists, register rejects with
Conflict and does not touch the state. -/
lemma register_conflict_of_found {db : Db} {dto : SignUpDto} {u : UserRow}
    (h : validateUser db dto.email = some u) :
    register db dto
      = (SvcResult.thrown (JsError.http (HttpError.conflict "user already exist")), db) := by
  simp [register, h]

/-- findFirst by email returns the head row when its email matches. -/
lemma validateUser_head {u : UserRow} {rest : List UserRow} {db : Db} {e : String}
    (hdb : db.users = u :: rest) (he : u.email = e) :
    validateUser db e = some u := by
  unfold validateUser userFindByEmail
  rw [hdb]
  rw [List.find?_cons_of_pos _ (by simp [he])]

/-- C3: after a successful sign-up, a second sign-up whose email matches the
first case-insensitively (the SignUpDto transform lower-cases both before
they reach the service) is rejected with Conflict, no second User row is
created, and the stored state is exactly the state after the first call. -/
theorem signUp_duplicate_email_conflict (db db1 : Db) (r1 r2 : SignUpDto) (env : RegisterOk)
    (h1 : signUp db r1 = (SvcResult.ok env, db1))
    (h2 : toLowerString r2.email = toLowerString r1.email) :
    signUp db1 r2
      = (SvcResult.thrown (JsError.http (HttpError.conflict "user already exist")), db1) := by
  unfold signUp at h1 ⊢
  obtain ⟨-, hdb⟩ := register_ok_inv h1
  have husers : db1.users
      = (⟨freshId db.nextId, (SignUpDto.transform r1).email,
           some ⟨db.nextSalt, (SignUpDto.transform r1).password⟩, none⟩ : UserRow)
        :: db.users := by
    rw [hdb]
  have hhead : validateUser db1 (SignUpDto.transform r2).email
      = some ⟨freshId db.nextId, (SignUpDto.transform r1).email,
          some ⟨db.nextSalt, (SignUpDto.transform r1).password⟩, none⟩ :=
    validateUser_head husers (by simp [SignUpDto.transform, h2])
  exact register_conflict_of_found hhead

/-- Fixture: first sign-up body. -/
def signUpA : SignUpDto := ⟨"Wina", none, "Wina@Email.com", "secret1"⟩

/-- Fixture: second sign-up body, same email up to case. -/
def signUpB : SignUpDto := ⟨"Other", some "Name", "wina@EMAIL.com", "secret2"⟩

/-- Fixture: store state after the first sign-up. -/
def dbAfterA : Db := (signUp dbEmpty signUpA).2

/-- C3 witness: the concrete second sign-up with the same email in different
case is rejected and the state stays that of the first sign-up. -/
theorem signUp_duplicate_email_conflict_witness :
    signUp dbAfterA signUpB
      = (SvcResult.thrown (JsError.http (HttpError.conflict "user already exist")), dbAfterA) :=
  signUp_duplicate_email_conflict dbEmpty dbAfterA signUpA signUpB
    ⟨"Create user successfully", 201, ⟨"c0", "wina@email.com", some ⟨0, "secret1"⟩, none⟩⟩
    rfl (by decide)

end BlogApi
